import Mathlib

/-!
Verification development for the ofxGrt DTW example application
(`example_dtw/src/ofApp.cpp`).

The application is a single event-driven shim over a gesture-recognition
pipeline: `update` polls the mouse once per frame, `keyPressed` drives
recording, labelling, training, and dataset persistence.  The pipeline,
the DTW classifier, and the dataset container come from the external GRT
library, which is not part of this repository's sources; those parts are
modelled from the specification and marked as such in their doc comments.
All state-machine logic (`setup`, `update`, `keyPressed`) is embedded
directly from `ofApp.cpp`.
-/

/-- A sample is one [x y] mouse coordinate pair captured at one tick.
`mouseX`/`mouseY` are integers in the GUI framework. -/
abbrev Sample := Int × Int

/-- One training example: a class label paired with a recorded timeseries. -/
structure TSExample where
  classLabel : Nat
  series : List Sample
deriving DecidableEq, Repr

/-- The training dataset: an ordered collection of labelled examples. -/
abbrev Dataset := List TSExample

/-- Modelled from the spec: `TimeSeriesClassificationData::addSample` of the
GRT library (not under src).  "Training Dataset: a collection of Training
Examples; supports add" — appends one labelled example to the collection. -/
def addSample (d : Dataset) (label : Nat) (series : List Sample) : Dataset :=
  d ++ [⟨label, series⟩]

/-! ## Persisted dataset format

Modelled from the spec: `saveDatasetToFile` / `loadDatasetFromFile` of the
GRT library (not under src).  "Persisted dataset format: a delimited text
file encoding, for each training example, the class label and its full
timeseries of samples."  The file is modelled as the stream of delimited
numeric fields (one `Int` per field); rendering each field as decimal
digits is a presentation concern. -/

/-- The content of the persisted file: the stream of delimited numeric
fields. -/
abbrev FileData := List Int

/-- Encode one timeseries as a flat field stream, two fields per sample. -/
def encodeSeries : List Sample → FileData
  | [] => []
  | p :: s => p.1 :: p.2 :: encodeSeries s

/-- Encode one training example: label field, length field, then the
sample fields. -/
def encodeExample (e : TSExample) : FileData :=
  (e.classLabel : Int) :: (e.series.length : Int) :: encodeSeries e.series

/-- Encode the examples of a dataset back to back. -/
def encodeExamples : Dataset → FileData
  | [] => []
  | e :: d => encodeExample e ++ encodeExamples d

/-- Modelled from the spec: `saveDatasetToFile` serialisation.  A count
field followed by each example's encoding. -/
def encodeDataset (d : Dataset) : FileData :=
  (d.length : Int) :: encodeExamples d

/-- Parse `n` samples from the field stream, returning the samples and the
remaining fields; fails on a malformed (truncated) stream. -/
def decodeSeries : Nat → FileData → Option (List Sample × FileData)
  | 0, rest => some ([], rest)
  | n + 1, x :: y :: rest =>
    match decodeSeries n rest with
    | some (s, r) => some ((x, y) :: s, r)
    | none => none
  | _ + 1, [] => none
  | _ + 1, [_] => none

/-- Parse `n` training examples from the field stream; fails on a
malformed stream (negative label or length fields, truncation). -/
def decodeExamples : Nat → FileData → Option (Dataset × FileData)
  | 0, rest => some ([], rest)
  | n + 1, l :: m :: rest =>
    if 0 ≤ l ∧ 0 ≤ m then
      match decodeSeries m.toNat rest with
      | some (s, r) =>
        match decodeExamples n r with
        | some (d, r2) => some (⟨l.toNat, s⟩ :: d, r2)
        | none => none
      | none => none
    else none
  | _ + 1, [] => none
  | _ + 1, [_] => none

/-- Modelled from the spec: `loadDatasetFromFile` parsing.  Reads the count
field, then that many examples, and requires the whole file to be
consumed; any format error yields `none`. -/
def decodeDataset (f : FileData) : Option Dataset :=
  match f with
  | n :: rest =>
    if 0 ≤ n then
      match decodeExamples n.toNat rest with
      | some (d, []) => some d
      | some (_, _ :: _) => none
      | none => none
    else none
  | [] => none

/-! ## DTW classification core

Modelled from the spec: the DTW classifier of the GRT library (not under
src).  "DTW cost is the minimum cumulative cost over all monotonic,
boundary-respecting alignments between two sequences under a pointwise
distance"; the pointwise distance is squared Euclidean (the spec allows
any pointwise distance; the square root of plain Euclidean is irrational
over `ℚ`).  An unreachable alignment has infinite cost, modelled by
`none`. -/

/-- Pointwise squared Euclidean distance between two samples (the
samples are integer mouse coordinates, so squared distances and DTW costs
are integers; thresholds, being means, remain rational). -/
def sqDist (a b : Sample) : ℤ :=
  (a.1 - b.1) ^ 2 + (a.2 - b.2) ^ 2

/-- Add a finite cost to a possibly-infinite cost (`none` is infinity). -/
def costAdd (q : ℤ) : Option ℤ → Option ℤ
  | some x => some (q + x)
  | none => none

/-- Minimum of two possibly-infinite costs. -/
def costMin : Option ℤ → Option ℤ → Option ℤ
  | none, y => y
  | some x, none => some x
  | some x, some y => if x ≤ y then some x else some y

/-- Order on possibly-infinite costs: `costLE x y` means `x ≤ y` where
`none` is infinity. -/
def costLE : Option ℤ → Option ℤ → Bool
  | _, none => true
  | none, some _ => false
  | some x, some y => decide (x ≤ y)

/-- `costGT c t` means the cost `c` strictly exceeds the finite threshold
`t` (an infinite cost exceeds every threshold). -/
def costGT : Option ℤ → ℚ → Bool
  | none, _ => true
  | some x, t => decide (t < (x : ℚ))

/-- DTW alignment cost with an explicit fuel argument; the wrapper
`dtwCost` supplies fuel sufficient for the two list lengths, so the
`0`-fuel case is unreachable. -/
def dtwCostFuel : Nat → List Sample → List Sample → Option ℤ
  | 0, _, _ => none
  | _ + 1, [], [] => some 0
  | _ + 1, [], _ :: _ => none
  | _ + 1, _ :: _, [] => none
  | f + 1, a :: as, b :: bs =>
    costAdd (sqDist a b)
      (costMin (dtwCostFuel f as (b :: bs))
        (costMin (dtwCostFuel f (a :: as) bs) (dtwCostFuel f as bs)))

/-- Minimum cumulative DTW alignment cost between an input timeseries and
a template. -/
def dtwCost (x t : List Sample) : Option ℤ :=
  dtwCostFuel (x.length + t.length + 1) x t

/-- One trained class: its label, its template, and its fitted
null-rejection threshold. -/
structure DTWClass where
  label : Nat
  template : List Sample
  threshold : ℚ
deriving DecidableEq, Repr

/-- Scan the classes and keep the one of minimum DTW cost against the
input (the earliest class wins ties), together with that cost. -/
def bestClass (input : List Sample) : List DTWClass → Option (DTWClass × Option ℤ)
  | [] => none
  | c :: cs =>
    let cost := dtwCost input c.template
    match bestClass input cs with
    | none => some (c, cost)
    | some p => some (if costLE cost p.2 then (c, cost) else p)

/-- Modelled from the spec: DTW prediction.  "Pick the class with minimum
cost ... If null-rejection is enabled and the best cost exceeds that
class's threshold, report the null class (label 0) instead." -/
def dtwPredict (nullRejection : Bool) (classes : List DTWClass)
    (input : List Sample) : Nat :=
  match bestClass input classes with
  | none => 0
  | some (c, cost) => if nullRejection && costGT cost c.threshold then 0 else c.label

/-! ## Pipeline model

Modelled from the spec: `GestureRecognitionPipeline` holding a DTW
classifier (GRT library, not under src).  The trained model is the set of
per-class templates plus fitted thresholds; it is replaced wholesale by
retraining. -/

/-- The trained model: one `DTWClass` per class of the training data. -/
structure TrainedModel where
  classes : List DTWClass
deriving DecidableEq, Repr

/-- Null rejection is enabled in `ofApp::setup` via
`dtw.enableNullRejection( true )`. -/
def setupNullRejection : Bool := true

/-- The null rejection coefficient set in `ofApp::setup` via
`dtw.setNullRejectionCoeff( 3 )`. -/
def setupNullRejectionCoeff : ℚ := 3

/-- The distinct class labels occurring in a dataset. -/
def classLabels (d : Dataset) : List Nat :=
  (d.map TSExample.classLabel).dedup

/-- Modelled from the spec: the per-class template, "e.g. via averaging or
selecting a medoid example"; modelled as the class's first example (a
degenerate medoid choice). -/
def classTemplate (d : Dataset) (l : Nat) : List Sample :=
  match d.find? (fun e => e.classLabel == l) with
  | some e => e.series
  | none => []

/-- Modelled from the spec: the fitted rejection threshold, derived from
the empirical DTW costs of the class's own examples against its template
("mean + k·stddev, with k configurable"); the standard-deviation term is
irrational over `ℚ` and is modelled by scaling the mean cost by the
coefficient. -/
def classThreshold (d : Dataset) (l : Nat) : ℚ :=
  let tmpl := classTemplate d l
  let costs := (d.filter (fun e => e.classLabel == l)).map
    (fun e => (((dtwCost e.series tmpl).getD 0 : ℤ) : ℚ))
  setupNullRejectionCoeff * (costs.sum / (costs.length : ℚ))

/-- Modelled from the spec: `pipeline.train`.  "Fails if a class has too
few examples, or if no examples are provided at all" and "caller must
leave the previous trained state (if any) untouched"; on success builds
one template and threshold per class. -/
def trainModel (d : Dataset) : Option TrainedModel :=
  if d.isEmpty then none
  else some ⟨(classLabels d).map (fun l => ⟨l, classTemplate d l, classThreshold d l⟩)⟩

/-- The pipeline state visible to the application: the trained flag, the
trained model, the rolling input buffer and the latest predicted label. -/
structure Pipeline where
  trained : Bool
  model : Option TrainedModel
  inputBuffer : List Sample
  predictedClassLabel : Nat
deriving DecidableEq, Repr

/-- Modelled from the spec: `pipeline.predict`.  Appends the sample to the
rolling input buffer and classifies the buffered input against the
trained model's classes under the configured null-rejection setting. -/
def pipelinePredict (p : Pipeline) (s : Sample) : Pipeline :=
  let buf := p.inputBuffer ++ [s]
  { p with
    inputBuffer := buf
    predictedClassLabel :=
      match p.model with
      | some m => dtwPredict setupNullRejection m.classes buf
      | none => p.predictedClassLabel }

/-! ## Application state machine (embedded from `ofApp.cpp`) -/

/-- `trainingClassLabel` is an `unsigned int` in the source; its increment
wraps modulo `2^32`. -/
def uintMod : Nat := 4294967296

/-- The mutable fields of `ofApp` relevant to the recorded behaviour
(plot and font objects are rendering-only and out of scope). -/
structure AppState where
  infoText : String
  trainingClassLabel : Nat
  record : Bool
  timeseries : List Sample
  trainingData : Dataset
  pipeline : Pipeline
deriving DecidableEq, Repr

/-- `ofApp::setup`: initial state.  The classifier is configured with null
rejection on (see `setupNullRejection`) and no trained model. -/
def setup : AppState :=
  { infoText := ""
    trainingClassLabel := 1
    record := false
    timeseries := []
    trainingData := []
    pipeline :=
      { trained := false
        model := none
        inputBuffer := []
        predictedClassLabel := 0 } }

/-- `ofApp::update`: one frame tick.  Grabs the current mouse sample,
appends it to the timeseries buffer when recording, and runs the
prediction exactly when the pipeline is trained.  The returned `Bool`
records whether `pipeline.predict` was invoked on this tick. -/
def update (st : AppState) (mouseX mouseY : Int) : AppState × Bool :=
  let sample : Sample := (mouseX, mouseY)
  let st1 :=
    if st.record then { st with timeseries := st.timeseries ++ [sample] } else st
  if st1.pipeline.trained then
    ({ st1 with pipeline := pipelinePredict st1.pipeline sample }, true)
  else (st1, false)

/-- `ofApp::keyPressed`: the keyboard control surface.  `disk` is the
current content of `TrainingData.txt` (`none` when the file is absent or
unreadable) and `writeOk` tells whether a write to it would succeed; the
function returns the new application state and the new file content. -/
def keyPressed (disk : Option FileData) (writeOk : Bool)
    (st : AppState) (key : Char) : AppState × Option FileData :=
  let st := { st with infoText := "" }
  match key with
  | 'r' =>
    let r := !st.record
    if r then ({ st with record := r }, disk)
    else
      ({ st with
          record := r
          trainingData := addSample st.trainingData st.trainingClassLabel st.timeseries
          timeseries := [] }, disk)
  | '[' =>
    ({ st with
        trainingClassLabel :=
          if 1 < st.trainingClassLabel then st.trainingClassLabel - 1
          else st.trainingClassLabel }, disk)
  | ']' =>
    ({ st with trainingClassLabel := (st.trainingClassLabel + 1) % uintMod }, disk)
  | '1' => ({ st with trainingClassLabel := 1 }, disk)
  | '2' => ({ st with trainingClassLabel := 2 }, disk)
  | '3' => ({ st with trainingClassLabel := 3 }, disk)
  | '4' => ({ st with trainingClassLabel := 4 }, disk)
  | '5' => ({ st with trainingClassLabel := 4 }, disk)
  | '6' => ({ st with trainingClassLabel := 6 }, disk)
  | '7' => ({ st with trainingClassLabel := 7 }, disk)
  | '8' => ({ st with trainingClassLabel := 8 }, disk)
  | '9' => ({ st with trainingClassLabel := 9 }, disk)
  | '0' => ({ st with trainingClassLabel := 0 }, disk)
  | 't' =>
    match trainModel st.trainingData with
    | some m =>
      ({ st with
          infoText := "Pipeline Trained"
          pipeline :=
            { trained := true
              model := some m
              inputBuffer := []
              predictedClassLabel := 0 } }, disk)
    | none => ({ st with infoText := "WARNING: Failed to train pipeline" }, disk)
  | 's' =>
    if writeOk then
      ({ st with infoText := "Training data saved to file" },
        some (encodeDataset st.trainingData))
    else ({ st with infoText := "WARNING: Failed to save training data to file" }, disk)
  | 'l' =>
    match disk with
    | some content =>
      match decodeDataset content with
      | some d =>
        ({ st with infoText := "Training data saved to file", trainingData := d }, disk)
      | none =>
        ({ st with infoText := "WARNING: Failed to load training data from file" }, disk)
    | none =>
      ({ st with infoText := "WARNING: Failed to load training data from file" }, disk)
  | 'c' => ({ st with trainingData := [], infoText := "Training data cleared" }, disk)
  | _ => (st, disk)

/-! ## Serialization round-trip lemmas -/

theorem decodeSeries_encodeSeries (s : List Sample) (rest : FileData) :
    decodeSeries s.length (encodeSeries s ++ rest) = some (s, rest) := by
  induction s with
  | nil => rfl
  | cons p s ih => simp [encodeSeries, decodeSeries, ih]

theorem decodeExamples_encodeExamples (d : Dataset) (rest : FileData) :
    decodeExamples d.length (encodeExamples d ++ rest) = some (d, rest) := by
  induction d with
  | nil => rfl
  | cons e d ih =>
    simp [encodeExamples, encodeExample, decodeExamples, List.append_assoc,
      decodeSeries_encodeSeries, ih]

theorem decodeDataset_encodeDataset (d : Dataset) :
    decodeDataset (encodeDataset d) = some d := by
  have h := decodeExamples_encodeExamples d []
  rw [List.append_nil] at h
  simp [decodeDataset, encodeDataset, h]

/-! ## Claim theorems on the application state machine -/

/-- Claim C2: on every frame tick, `update` invokes `pipeline.predict` on
the current sample if and only if the pipeline reports itself trained; in
every state where the pipeline is untrained, no prediction occurs. -/
theorem update_predicts_iff_trained (st : AppState) (mx my : Int) :
    (update st mx my).2 = st.pipeline.trained := by
  cases hr : st.record <;> cases ht : st.pipeline.trained <;>
    simp [update, hr, ht]

/-- Claim C6: on every update tick, the current mouse sample is appended
to the end of the timeseries buffer exactly when `record` is true; when
`record` is false the buffer is left unchanged. -/
theorem update_timeseries_iff_record (st : AppState) (mx my : Int) :
    (update st mx my).1.timeseries =
      if st.record then st.timeseries ++ [((mx : Int), (my : Int))]
      else st.timeseries := by
  cases hr : st.record <;> cases ht : st.pipeline.trained <;>
    simp [update, hr, ht, pipelinePredict]

/-- Claim C5: when recording is active and `'r'` is pressed, the buffered
timeseries is finalized into exactly one training example labelled with
the current `trainingClassLabel`, and the buffer is cleared. -/
theorem stop_recording_finalizes (disk : Option FileData) (w : Bool)
    (st : AppState) (h : st.record = true) :
    (keyPressed disk w st 'r').1.trainingData
        = st.trainingData ++ [⟨st.trainingClassLabel, st.timeseries⟩] ∧
      (keyPressed disk w st 'r').1.timeseries = [] ∧
      (keyPressed disk w st 'r').1.record = false := by
  simp [keyPressed, h, addSample]

/-- Witness for C5 at a concrete recording state. -/
theorem stop_recording_finalizes_witness :
    (keyPressed none true { setup with record := true } 'r').1.trainingData
        = [⟨1, []⟩] ∧
      (keyPressed none true { setup with record := true } 'r').1.timeseries = [] ∧
      (keyPressed none true { setup with record := true } 'r').1.record = false := by
  have h := stop_recording_finalizes none true { setup with record := true } rfl
  simpa [setup] using h

/-- Claim C7: the key-to-label mapping has a duplicate: the distinct keys
`'4'` and `'5'` both set `trainingClassLabel` to 4, so the mapping from
digit keys to labels is not injective. -/
theorem digit_key_label_collision :
    ('4' : Char) ≠ '5' ∧
      ∀ (disk : Option FileData) (w : Bool) (st : AppState),
        (keyPressed disk w st '4').1.trainingClassLabel = 4 ∧
        (keyPressed disk w st '5').1.trainingClassLabel = 4 :=
  ⟨by decide, fun _ _ _ => ⟨rfl, rfl⟩⟩

/-- Counterexample for C8: in the initial state (`trainingClassLabel = 1`)
pressing `'['` does not decrease the label by one; the source guards the
decrement with `trainingClassLabel > 1`. -/
theorem bracket_decrement_cex :
    ¬ (keyPressed none true setup '[').1.trainingClassLabel
        = setup.trainingClassLabel - 1 := by
  decide

/-- Claim C8 (amended): pressing `']'` increases `trainingClassLabel` by
one (modulo `2^32`, the label being an `unsigned int`), and pressing `'['`
decreases it by one exactly when it is greater than 1, leaving it
unchanged otherwise. -/
theorem bracket_keys_label_change (disk : Option FileData) (w : Bool) (st : AppState) :
    (keyPressed disk w st ']').1.trainingClassLabel
        = (st.trainingClassLabel + 1) % uintMod ∧
      (keyPressed disk w st '[').1.trainingClassLabel
        = if 1 < st.trainingClassLabel then st.trainingClassLabel - 1
          else st.trainingClassLabel :=
  ⟨rfl, rfl⟩

/-- Claim C1: training on an empty dataset fails, and whenever
`pipeline.train` fails on key `'t'`, the failure is surfaced via
`infoText` and the pipeline (trained state and model) is left exactly as
it was. -/
theorem train_failure_preserves_pipeline :
    trainModel [] = none ∧
      ∀ (disk : Option FileData) (w : Bool) (st : AppState),
        trainModel st.trainingData = none →
          (keyPressed disk w st 't').1.pipeline = st.pipeline ∧
          (keyPressed disk w st 't').1.infoText
            = "WARNING: Failed to train pipeline" := by
  refine ⟨rfl, fun disk w st h => ?_⟩
  simp [keyPressed, h]

/-- Witness for C1 at the initial state, whose dataset is empty. -/
theorem train_failure_preserves_pipeline_witness :
    (keyPressed none true setup 't').1.pipeline = setup.pipeline ∧
    (keyPressed none true setup 't').1.infoText
      = "WARNING: Failed to train pipeline" :=
  train_failure_preserves_pipeline.2 none true setup (by decide)

/-- Claim C3: saving the training dataset (key `'s'`) and then reloading
it (key `'l'`) restores exactly the same list of (label, timeseries)
pairs: labels, sample values and ordering are all preserved. -/
theorem save_load_roundtrip (disk : Option FileData) (st : AppState) :
    (keyPressed (keyPressed disk true st 's').2 true
        (keyPressed disk true st 's').1 'l').1.trainingData
      = st.trainingData := by
  simp [keyPressed, decodeDataset_encodeDataset]

/-- Claim C9: a failing load (missing/unreadable file or format error)
and a failing save are reported non-fatally through `infoText`, and the
in-memory training dataset (and, for save, the file) is retained
unchanged. -/
theorem load_save_failure_nonfatal :
    (∀ (w : Bool) (st : AppState),
        (keyPressed none w st 'l').1.trainingData = st.trainingData ∧
        (keyPressed none w st 'l').1.infoText
          = "WARNING: Failed to load training data from file") ∧
      (∀ (w : Bool) (st : AppState) (content : FileData),
        decodeDataset content = none →
          (keyPressed (some content) w st 'l').1.trainingData = st.trainingData ∧
          (keyPressed (some content) w st 'l').1.infoText
            = "WARNING: Failed to load training data from file") ∧
      (∀ (disk : Option FileData) (st : AppState),
        (keyPressed disk false st 's').1.trainingData = st.trainingData ∧
        (keyPressed disk false st 's').1.infoText
          = "WARNING: Failed to save training data to file" ∧
        (keyPressed disk false st 's').2 = disk) := by
  refine ⟨fun w st => ⟨rfl, rfl⟩, fun w st content h => ?_,
    fun disk st => ⟨rfl, rfl, rfl⟩⟩
  simp [keyPressed, h]

/-- Witness for C9 on a malformed file content (negative count field). -/
theorem load_save_failure_nonfatal_witness :
    (keyPressed (some [-1]) true setup 'l').1.trainingData = setup.trainingData ∧
    (keyPressed (some [-1]) true setup 'l').1.infoText
      = "WARNING: Failed to load training data from file" :=
  load_save_failure_nonfatal.2.1 true setup [-1] (by decide)

/-- Claim C10: pressing `'0'` sets the active label to the null sentinel
0 in every state, and nothing prevents finishing a recording with label
0: the key sequence `'0'`, `'r'`, one tick, `'r'` from the initial state
adds a training example labelled 0 to the dataset. -/
theorem null_label_recordable :
    (∀ (disk : Option FileData) (w : Bool) (st : AppState),
        (keyPressed disk w st '0').1.trainingClassLabel = 0) ∧
      (keyPressed none true
          (update (keyPressed none true
            (keyPressed none true setup '0').1 'r').1 3 4).1 'r').1.trainingData
        = [⟨0, [(3, 4)]⟩] :=
  ⟨fun _ _ _ => rfl, by decide⟩

/-! ## Order lemmas on possibly-infinite costs -/

theorem costLE_refl (x : Option ℤ) : costLE x x = true := by
  cases x <;> simp [costLE]

theorem costLE_trans {x y z : Option ℤ} (h1 : costLE x y = true)
    (h2 : costLE y z = true) : costLE x z = true := by
  cases x <;> cases y <;> cases z <;> simp_all [costLE]
  exact le_trans h1 h2

theorem costLE_of_not_costLE {x y : Option ℤ} (h : costLE x y = false) :
    costLE y x = true := by
  cases x <;> cases y <;> simp_all [costLE]
  exact le_of_lt h

/-! ## Specification of the best-class scan -/

theorem bestClass_eq_none {input : List Sample} {cs : List DTWClass}
    (h : bestClass input cs = none) : cs = [] := by
  cases cs with
  | nil => rfl
  | cons a as =>
    simp only [bestClass] at h
    cases hb : bestClass input as <;> rw [hb] at h <;> simp at h

theorem bestClass_spec {input : List Sample} :
    ∀ {cs : List DTWClass} {c : DTWClass} {k : Option ℤ},
      bestClass input cs = some (c, k) →
      c ∈ cs ∧ k = dtwCost input c.template ∧
        ∀ c' ∈ cs, costLE k (dtwCost input c'.template) = true := by
  intro cs
  induction cs with
  | nil => intro c k h; simp [bestClass] at h
  | cons a as ih =>
    intro c k h
    simp only [bestClass] at h
    cases hb : bestClass input as with
    | none =>
      rw [hb] at h
      have has : as = [] := bestClass_eq_none hb
      subst has
      simp only [Option.some.injEq] at h
      injection h with h1 h2
      subst h1
      subst h2
      refine ⟨List.mem_cons_self _ _, rfl, ?_⟩
      intro c' hc'
      rcases List.mem_cons.mp hc' with h1 | h1
      · subst h1; exact costLE_refl _
      · simp at h1
    | some p =>
      rw [hb] at h
      obtain ⟨hmem, hcost, hmin⟩ := ih hb
      simp only [Option.some.injEq] at h
      by_cases hle : costLE (dtwCost input a.template) p.2 = true
      · rw [if_pos hle] at h
        injection h with h1 h2
        subst h1
        subst h2
        refine ⟨List.mem_cons_self _ _, rfl, ?_⟩
        intro c' hc'
        rcases List.mem_cons.mp hc' with h1 | h1
        · subst h1; exact costLE_refl _
        · exact costLE_trans hle (hmin c' h1)
      · rw [if_neg hle] at h
        subst h
        have hf : costLE (dtwCost input a.template) k = false := by
          simpa using hle
        refine ⟨List.mem_cons_of_mem _ hmem, hcost, ?_⟩
        intro c' hc'
        rcases List.mem_cons.mp hc' with h1 | h1
        · subst h1
          exact costLE_of_not_costLE hf
        · exact hmin c' h1

/-- Claim C4: with null rejection enabled (as `ofApp::setup` configures
via `enableNullRejection(true)`), every input whose DTW cost against each
class template strictly exceeds that class's fitted rejection threshold
is classified as the null label 0; with null rejection disabled,
prediction returns the label of a class of minimum DTW cost regardless of
how large that cost is. -/
theorem null_rejection_behavior :
    (∀ (classes : List DTWClass) (input : List Sample),
        classes ≠ [] →
        (∀ c ∈ classes, costGT (dtwCost input c.template) c.threshold = true) →
        dtwPredict setupNullRejection classes input = 0) ∧
      (∀ (classes : List DTWClass) (input : List Sample),
        classes ≠ [] →
        ∃ c ∈ classes, dtwPredict false classes input = c.label ∧
          ∀ c' ∈ classes,
            costLE (dtwCost input c.template) (dtwCost input c'.template) = true) := by
  constructor
  · intro classes input hne hall
    cases hb : bestClass input classes with
    | none => exact absurd (bestClass_eq_none hb) hne
    | some p =>
      obtain ⟨c, k⟩ := p
      obtain ⟨hmem, hcost, -⟩ := bestClass_spec hb
      simp only [dtwPredict, hb]
      rw [hcost]
      simp [setupNullRejection, hall c hmem]
  · intro classes input hne
    cases hb : bestClass input classes with
    | none => exact absurd (bestClass_eq_none hb) hne
    | some p =>
      obtain ⟨c, k⟩ := p
      obtain ⟨hmem, hcost, hmin⟩ := bestClass_spec hb
      refine ⟨c, hmem, ?_, ?_⟩
      · simp [dtwPredict, hb]
      · intro c' hc'
        rw [← hcost]
        exact hmin c' hc'

/-- Witness for C4: one class labelled 7 with template at the origin and
threshold 1; the distant input is rejected to label 0 under null
rejection and classified as the nearest class without it. -/
theorem null_rejection_behavior_witness :
    dtwPredict setupNullRejection [⟨7, [((0 : Int), (0 : Int))], 1⟩] [(5, 5)] = 0 ∧
      ∃ c ∈ [(⟨7, [((0 : Int), (0 : Int))], 1⟩ : DTWClass)],
        dtwPredict false [⟨7, [((0 : Int), (0 : Int))], 1⟩] [(5, 5)] = c.label ∧
        ∀ c' ∈ [(⟨7, [((0 : Int), (0 : Int))], 1⟩ : DTWClass)],
          costLE (dtwCost [(5, 5)] c.template) (dtwCost [(5, 5)] c'.template) = true :=
  ⟨null_rejection_behavior.1 _ _ (by decide) (by decide),
    null_rejection_behavior.2 _ _ (by decide)⟩
